import Mathlib

/-!
# CloudGuard alert module — verification of the status machine, filtering and aggregation

Shallow embedding of `src/cloudguard/server/models/Alert.js`:
the `Alert` model class, and the dashboard's `filteredAlerts`, `statistics`,
`handleStatusUpdate` (optimistic update) and `getNextStatus` functions.
JavaScript strings become `String`, arrays become `List`, and the
three-valued result of a JS object lookup (a string, `null`, or `undefined`
for a missing key) becomes the inductive `JSVal`.
-/

namespace CloudGuard

/-- A JavaScript value as returned by the `transitions[currentStatus]` lookup in
`getNextStatus`: a string, the explicit `null` stored under the `'Resolved'` key,
or `undefined` when the key is absent from the object. -/
inductive JSVal where
  | str (s : String)
  | null
  | undefined
deriving DecidableEq, Repr

/-- Embedding of JavaScript `String.prototype.toLowerCase()`: lowercase each
character. -/
def jsToLower (s : String) : String :=
  String.mk (s.data.map Char.toLower)

/-- Embedding of the JavaScript global-regex replace of `'-'` by the empty
string: drop every hyphen character. -/
def removeHyphens (s : String) : String :=
  String.mk (s.data.filter (fun c => c ≠ '-'))

/-- Embedding of JavaScript `hay.includes(needle)`: `needle` occurs as a
contiguous substring of `hay` (every string includes the empty string). -/
def jsIncludes (hay needle : String) : Bool :=
  decide (needle.data <:+: hay.data)

/-- The `Alert` record. The five string fields are the ones the model class
constructor assigns; `timestamp` is carried as an `Option` because the
constructor in `models/Alert.js` never assigns it (a JS property that was never
set reads back as `undefined`, i.e. `none`), while alert objects arriving from
the backend JSON may carry one. -/
structure Alert where
  id : String
  severity : String
  category : String
  status : String
  description : String
  timestamp : Option String
deriving DecidableEq, Repr

/-- Embedding of the `Alert` class constructor
(`models/Alert.js`, lines 1-9): it assigns exactly
`id`, `severity`, `category`, `status` and `description`, and nothing else, so
the `timestamp` property of a freshly constructed `Alert` is `undefined`. -/
def Alert.create (id severity category status description : String) : Alert :=
  { id := id
    severity := severity
    category := category
    status := status
    description := description
    timestamp := none }

/-- The dashboard's filter-criteria record
(`filters` state: `{severity, status, category, search}`). -/
structure Filters where
  severity : String
  status : String
  category : String
  search : String
deriving DecidableEq, Repr

/-- The predicate passed to `alerts.filter` inside `filteredAlerts`
(lines 112-132): severity / status / category each match when the filter is
`'all'` or compares equal after `toLowerCase()` (status additionally strips
hyphens from both sides); search matches when the search string is empty
(JS falsiness of `''`) or is a lowercased substring of the description or id. -/
def matchesFilters (filters : Filters) (alert : Alert) : Bool :=
  let matchesSeverity := filters.severity == "all" ||
    jsToLower alert.severity == jsToLower filters.severity
  let normalizedStatus := removeHyphens (jsToLower alert.status)
  let matchesStatus := filters.status == "all" ||
    normalizedStatus == removeHyphens (jsToLower filters.status)
  let matchesCategory := filters.category == "all" ||
    jsToLower alert.category == jsToLower filters.category
  let searchLower := jsToLower filters.search
  let matchesSearch := filters.search == "" ||
    jsIncludes (jsToLower alert.description) searchLower ||
    jsIncludes (jsToLower alert.id) searchLower
  matchesSeverity && matchesStatus && matchesCategory && matchesSearch

/-- Embedding of the `filteredAlerts` memo (lines 111-134):
`alerts.filter(alert => ...)`. -/
def filteredAlerts (filters : Filters) (alerts : List Alert) : List Alert :=
  alerts.filter (matchesFilters filters)

/-- The `statistics` record computed for the stat cards. -/
structure Statistics where
  new : Nat
  acknowledged : Nat
  inProgress : Nat
  resolved : Nat
  total : Nat
deriving DecidableEq, Repr

/-- Embedding of the `statistics` memo (lines 139-147): each bucket counts
alerts whose `status` is strictly (`===`) equal to the canonical string;
`total` is the array length. -/
def statistics (alerts : List Alert) : Statistics :=
  { new := (alerts.filter (fun a => a.status == "New")).length
    acknowledged := (alerts.filter (fun a => a.status == "Acknowledged")).length
    inProgress := (alerts.filter (fun a => a.status == "In-Progress")).length
    resolved := (alerts.filter (fun a => a.status == "Resolved")).length
    total := alerts.length }

/-- Embedding of the optimistic update performed by `handleStatusUpdate` on
success (lines 194-199): `prev.map(alert => alert.id === alertId ?
{...alert, status: newStatus} : alert)`. -/
def handleStatusUpdate (alertId newStatus : String) (alerts : List Alert) : List Alert :=
  alerts.map (fun alert =>
    if alert.id == alertId then { alert with status := newStatus } else alert)

/-- Embedding of `getNextStatus` (lines 509-517): a lookup in the object
`{'New': 'Acknowledged', 'Acknowledged': 'In-Progress',
'In-Progress': 'Resolved', 'Resolved': null}`; a status that is not a key of
the object yields `undefined`. -/
def getNextStatus (currentStatus : String) : JSVal :=
  if currentStatus == "New" then .str "Acknowledged"
  else if currentStatus == "Acknowledged" then .str "In-Progress"
  else if currentStatus == "In-Progress" then .str "Resolved"
  else if currentStatus == "Resolved" then .null
  else .undefined

/-- Embedding of `canTransition` in `AlertCard` (line 534):
`nextStatus !== null` — a strict comparison against `null` only, so
`undefined` compares as transitionable. -/
def canTransition (nextStatus : JSVal) : Bool :=
  nextStatus != JSVal.null

/-- The error taxonomy of the status-update endpoint relevant here. -/
inductive UpdateError where
  | NotFound
deriving DecidableEq, Repr

/-- Modelled from the spec: the server-side `PUT /alerts/{id}/status` handler
(`routes/alerts.js`, which is not present under `src/`). Per the spec,
"`NotFound` — referenced alert id does not exist in the store" and
"Transitioning an unknown id always yields `NotFound` and never mutates the
collection"; on an existing id the store applies the status update. -/
def serverStatusUpdate (alertId newStatus : String) (alerts : List Alert) :
    Except UpdateError (List Alert) :=
  if alerts.any (fun a => a.id == alertId) then
    .ok (handleStatusUpdate alertId newStatus alerts)
  else
    .error .NotFound

/-- The filter-acceptance condition as the spec states it, for comparison with
the code's `matchesFilters`: severity/category match when the filter is `all`
or equal case-insensitively; status matches when the filter is `all` or equal
after normalizing away hyphens and case; search matches when empty or a
case-insensitive substring of the description or the id. -/
def specMatches (filters : Filters) (alert : Alert) : Prop :=
  (filters.severity = "all" ∨ jsToLower alert.severity = jsToLower filters.severity) ∧
  (filters.status = "all" ∨
    removeHyphens (jsToLower alert.status) = removeHyphens (jsToLower filters.status)) ∧
  (filters.category = "all" ∨ jsToLower alert.category = jsToLower filters.category) ∧
  (filters.search = "" ∨
    jsIncludes (jsToLower alert.description) (jsToLower filters.search) = true ∨
    jsIncludes (jsToLower alert.id) (jsToLower filters.search) = true)

instance (filters : Filters) (alert : Alert) : Decidable (specMatches filters alert) := by
  unfold specMatches
  infer_instance

/-- The filter criteria with every selector set to `'all'` and an empty
search string. -/
def allFilters : Filters :=
  { severity := "all", status := "all", category := "all", search := "" }

/-- A list map equals the list itself when the function fixes every element;
used for the absent-id case of the status update. -/
theorem list_map_eq_self {α : Type} {f : α → α} {l : List α}
    (h : ∀ a ∈ l, f a = a) : l.map f = l := by
  induction l with
  | nil => rfl
  | cons a t ih =>
    simp only [List.map_cons, h a (List.mem_cons_self a t)]
    rw [ih (fun x hx => h x (List.mem_cons_of_mem a hx))]

/-- C1: `getNextStatus` maps New ↦ Acknowledged, Acknowledged ↦ In-Progress,
In-Progress ↦ Resolved, and Resolved ↦ null (no next status). -/
theorem getNextStatus_lifecycle :
    getNextStatus "New" = JSVal.str "Acknowledged" ∧
    getNextStatus "Acknowledged" = JSVal.str "In-Progress" ∧
    getNextStatus "In-Progress" = JSVal.str "Resolved" ∧
    getNextStatus "Resolved" = JSVal.null := by
  refine ⟨?_, ?_, ?_, ?_⟩ <;> rfl

/-- C9: for a status string outside the four lifecycle values, the object
lookup in `getNextStatus` yields `undefined`, not `null`; since `AlertCard`
tests `nextStatus !== null` only, such an alert is still offered a transition,
whose target is `undefined`. -/
theorem getNextStatus_unknown_undefined (s : String)
    (h1 : s ≠ "New") (h2 : s ≠ "Acknowledged")
    (h3 : s ≠ "In-Progress") (h4 : s ≠ "Resolved") :
    getNextStatus s = JSVal.undefined ∧ canTransition (getNextStatus s) = true := by
  have e1 : (s == "New") = false := beq_eq_false_iff_ne.mpr h1
  have e2 : (s == "Acknowledged") = false := beq_eq_false_iff_ne.mpr h2
  have e3 : (s == "In-Progress") = false := beq_eq_false_iff_ne.mpr h3
  have e4 : (s == "Resolved") = false := beq_eq_false_iff_ne.mpr h4
  simp [getNextStatus, canTransition, e1, e2, e3, e4]

/-- C9 witness: the lowercase variant `"in-progress"` is not a key of the
transition table, gets `undefined`, and is treated as transitionable. -/
theorem getNextStatus_unknown_undefined_witness :
    getNextStatus "in-progress" = JSVal.undefined ∧
    canTransition (getNextStatus "in-progress") = true :=
  getNextStatus_unknown_undefined "in-progress"
    (by decide) (by decide) (by decide) (by decide)

/-- The code's filter predicate agrees with the spec's acceptance condition. -/
theorem matchesFilters_iff_specMatches (filters : Filters) (alert : Alert) :
    matchesFilters filters alert = true ↔ specMatches filters alert := by
  simp only [matchesFilters, specMatches, Bool.and_eq_true, Bool.or_eq_true, beq_iff_eq]
  tauto

/-- C4: an alert appears in `filteredAlerts` iff it is in the input collection
and satisfies the spec's acceptance condition: severity/category equal
case-insensitively or `all`, status equal after dropping hyphens and case or
`all`, and search empty or a case-insensitive substring of description or id. -/
theorem filteredAlerts_mem_iff (filters : Filters) (alerts : List Alert) (a : Alert) :
    a ∈ filteredAlerts filters alerts ↔ a ∈ alerts ∧ specMatches filters a := by
  unfold filteredAlerts
  rw [List.mem_filter, matchesFilters_iff_specMatches]

/-- C5: with every selector set to `all` and an empty search string the filter
keeps every alert, returning the collection unchanged and in order. -/
theorem filteredAlerts_all_identity (alerts : List Alert) :
    filteredAlerts allFilters alerts = alerts := by
  apply List.filter_eq_self.mpr
  intro a _
  exact rfl

/-- C6: the filtered output is a sublist of the input collection — every
output element comes from the input and relative order is preserved (and the
input list itself is untouched, `filteredAlerts` being a pure function). -/
theorem filteredAlerts_sublist (filters : Filters) (alerts : List Alert) :
    (filteredAlerts filters alerts).Sublist alerts :=
  List.filter_sublist alerts

/-- C7: a successful status update for an existing id keeps the collection's
length, changes nothing but the status of the alert(s) bearing that id (id,
severity, category, description and timestamp are all preserved at every
position), leaves every alert with a different id entirely unchanged, and sets
the matched alert's status to the requested value. -/
theorem handleStatusUpdate_frame (alerts : List Alert) (alertId newStatus : String)
    (_hex : ∃ a ∈ alerts, a.id = alertId) :
    (handleStatusUpdate alertId newStatus alerts).length = alerts.length ∧
    ∀ (i : Nat) (hi : i < alerts.length)
      (hi' : i < (handleStatusUpdate alertId newStatus alerts).length),
      ((handleStatusUpdate alertId newStatus alerts).get ⟨i, hi'⟩).id =
        (alerts.get ⟨i, hi⟩).id ∧
      ((handleStatusUpdate alertId newStatus alerts).get ⟨i, hi'⟩).severity =
        (alerts.get ⟨i, hi⟩).severity ∧
      ((handleStatusUpdate alertId newStatus alerts).get ⟨i, hi'⟩).category =
        (alerts.get ⟨i, hi⟩).category ∧
      ((handleStatusUpdate alertId newStatus alerts).get ⟨i, hi'⟩).description =
        (alerts.get ⟨i, hi⟩).description ∧
      ((handleStatusUpdate alertId newStatus alerts).get ⟨i, hi'⟩).timestamp =
        (alerts.get ⟨i, hi⟩).timestamp ∧
      ((alerts.get ⟨i, hi⟩).id ≠ alertId →
        (handleStatusUpdate alertId newStatus alerts).get ⟨i, hi'⟩ =
          alerts.get ⟨i, hi⟩) ∧
      ((alerts.get ⟨i, hi⟩).id = alertId →
        ((handleStatusUpdate alertId newStatus alerts).get ⟨i, hi'⟩).status =
          newStatus) := by
  constructor
  · simp [handleStatusUpdate]
  · intro i hi hi'
    simp only [handleStatusUpdate, List.get_eq_getElem, List.getElem_map]
    by_cases hc : alerts[i].id = alertId
    · simp [hc]
    · simp [beq_eq_false_iff_ne.mpr hc, hc]

/-- A two-alert store used to instantiate the frame theorem. -/
def demoStore : List Alert :=
  [Alert.create "A1" "High" "CVE" "New" "x",
   Alert.create "B2" "Low" "S3" "Resolved" "y"]

/-- C7 witness: updating the existing id `A1` in a concrete two-alert store
keeps the collection length. -/
theorem handleStatusUpdate_frame_witness :
    (handleStatusUpdate "A1" "Acknowledged" demoStore).length = demoStore.length :=
  (handleStatusUpdate_frame demoStore "A1" "Acknowledged"
    ⟨Alert.create "A1" "High" "CVE" "New" "x", by decide⟩).1

/-- C8: when no alert in the collection bears the requested id, the
(spec-modelled) server handler answers `NotFound`, and the per-id update map is
the identity, so the collection is left exactly as it was. -/
theorem serverStatusUpdate_notFound (alerts : List Alert) (alertId newStatus : String)
    (h : ∀ a ∈ alerts, a.id ≠ alertId) :
    serverStatusUpdate alertId newStatus alerts = .error .NotFound ∧
    handleStatusUpdate alertId newStatus alerts = alerts := by
  constructor
  · have hany : alerts.any (fun a => a.id == alertId) = false := by
      rw [List.any_eq_false]
      intro a ha
      simp [h a ha]
    simp [serverStatusUpdate, hany]
  · apply list_map_eq_self
    intro a ha
    simp [beq_eq_false_iff_ne.mpr (h a ha)]

/-- C8 witness: requesting id `ZZZ`, absent from the concrete store, yields
`NotFound` and the identity update. -/
theorem serverStatusUpdate_notFound_witness :
    serverStatusUpdate "ZZZ" "Resolved" demoStore = .error .NotFound ∧
    handleStatusUpdate "ZZZ" "Resolved" demoStore = demoStore :=
  serverStatusUpdate_notFound demoStore "ZZZ" "Resolved" (by decide)

/-- An alert whose status string is a case/hyphenation variant outside the four
canonical lifecycle values. -/
def oddStatusAlert : Alert :=
  { id := "A1", severity := "High", category := "CVE",
    status := "in-progress", description := "x", timestamp := none }

/-- C2 counterexample: on a collection containing one alert whose status is
`"in-progress"` (not canonically spelled), the four status buckets sum to 0
while the total is 1, so the identity claimed for every collection fails. -/
theorem statistics_sum_counterexample :
    ¬ ((statistics [oddStatusAlert]).new + (statistics [oddStatusAlert]).acknowledged +
       (statistics [oddStatusAlert]).inProgress + (statistics [oddStatusAlert]).resolved =
       (statistics [oddStatusAlert]).total) := by
  decide

/-- C2 (amended): for every collection in which each alert's status is exactly
one of the four canonical strings, the per-status counts sum to the total. -/
theorem statistics_sum_eq_total (alerts : List Alert)
    (h : ∀ a ∈ alerts, a.status = "New" ∨ a.status = "Acknowledged" ∨
      a.status = "In-Progress" ∨ a.status = "Resolved") :
    (statistics alerts).new + (statistics alerts).acknowledged +
      (statistics alerts).inProgress + (statistics alerts).resolved =
      (statistics alerts).total := by
  induction alerts with
  | nil => rfl
  | cons a t ih =>
    have ha := h a (List.mem_cons_self a t)
    have ih' := ih (fun x hx => h x (List.mem_cons_of_mem a hx))
    simp only [statistics, List.filter_cons, List.length_cons] at ih' ⊢
    rcases ha with h1 | h1 | h1 | h1 <;> simp [h1] <;> omega

/-- C2 witness: on a concrete store with one `New` and one `Resolved` alert the
bucket counts sum to the total of 2. -/
theorem statistics_sum_eq_total_witness :
    (statistics demoStore).new + (statistics demoStore).acknowledged +
      (statistics demoStore).inProgress + (statistics demoStore).resolved =
      (statistics demoStore).total :=
  statistics_sum_eq_total demoStore (by decide)

/-- C10: an alert whose status is not exactly one of the four canonical strings
(the buckets match with case-sensitive `===`, unlike the filter's normalized
matching) contributes to `total` but to none of the four status buckets. -/
theorem statistics_uncounted_status (alerts : List Alert) (a : Alert)
    (h1 : a.status ≠ "New") (h2 : a.status ≠ "Acknowledged")
    (h3 : a.status ≠ "In-Progress") (h4 : a.status ≠ "Resolved") :
    (statistics (a :: alerts)).new = (statistics alerts).new ∧
    (statistics (a :: alerts)).acknowledged = (statistics alerts).acknowledged ∧
    (statistics (a :: alerts)).inProgress = (statistics alerts).inProgress ∧
    (statistics (a :: alerts)).resolved = (statistics alerts).resolved ∧
    (statistics (a :: alerts)).total = (statistics alerts).total + 1 := by
  have e1 : (a.status == "New") = false := beq_eq_false_iff_ne.mpr h1
  have e2 : (a.status == "Acknowledged") = false := beq_eq_false_iff_ne.mpr h2
  have e3 : (a.status == "In-Progress") = false := beq_eq_false_iff_ne.mpr h3
  have e4 : (a.status == "Resolved") = false := beq_eq_false_iff_ne.mpr h4
  simp [statistics, List.filter_cons, e1, e2, e3, e4]

/-- C10 witness: the `"in-progress"`-status alert added to an empty store
leaves every bucket at 0 while the total becomes 1. -/
theorem statistics_uncounted_status_witness :
    (statistics [oddStatusAlert]).new = (statistics ([] : List Alert)).new ∧
    (statistics [oddStatusAlert]).acknowledged =
      (statistics ([] : List Alert)).acknowledged ∧
    (statistics [oddStatusAlert]).inProgress =
      (statistics ([] : List Alert)).inProgress ∧
    (statistics [oddStatusAlert]).resolved = (statistics ([] : List Alert)).resolved ∧
    (statistics [oddStatusAlert]).total = (statistics ([] : List Alert)).total + 1 :=
  statistics_uncounted_status [] oddStatusAlert
    (by decide) (by decide) (by decide) (by decide)

/-- C3: the `Alert` class constructor assigns only id, severity, category,
status and description; the `timestamp` property of every alert it constructs
is left `undefined` (`none`), contradicting the stated data model in which the
constructor sets the creation time. -/
theorem alertCreate_timestamp_none (id severity category status description : String) :
    (Alert.create id severity category status description).timestamp = none :=
  rfl

end CloudGuard
